import Mathlib

/-
Verification development for the notebook-export component of a VS Code
Jupyter extension fragment.  The development shallowly embeds the three
adapters visible in the sources:

  - ExportBase (web export orchestrator): executeCommand, invokeWithFileSynced,
    b64toBlob, isExportFailed, parseStreamOutput, getCWD, and the trivial
    public method named export in the source (here exportMethod, since that
    word is a Lean keyword).
  - ConnectionDisplayDataProvider.getDisplayData (memoized display-data cache).
  - JupyterServerSelector.addJupyterServerOld and validateSelectJupyterURI.

External dependencies (the jupyterlab services client, the host editor API,
the localization bundle, base64 decoding) are modelled as explicit
environment records carrying the outcome of each awaited external call.
Stateful asynchronous execution is modelled by explicit state passing plus a
trace of effects, listed in the order the source performs the calls.
-/

set_option autoImplicit false

/-- The whitespace class of JavaScript regular expressions (the class written
backslash-s) and of String.prototype.trim: tab, LF, VT, FF, CR, space, NBSP,
and the Unicode space separators, line/paragraph separators, and BOM. -/
def isJsSpace (c : Char) : Bool :=
  let n := c.toNat
  n = 0x9 || n = 0xa || n = 0xb || n = 0xc || n = 0xd || n = 0x20 ||
  n = 0xa0 || n = 0x1680 || (0x2000 ≤ n && n ≤ 0x200a) || n = 0x2028 ||
  n = 0x2029 || n = 0x202f || n = 0x205f || n = 0x3000 || n = 0xfeff

/-- JavaScript String.prototype.trim on a character list: drop leading and
trailing whitespace. -/
def jsTrimList (l : List Char) : List Char :=
  ((l.dropWhile isJsSpace).reverse.dropWhile isJsSpace).reverse

/-- JavaScript String.prototype.trim. -/
def jsTrim (s : String) : String :=
  String.mk (jsTrimList s.toList)

/-- Substring search on character lists: true when needle occurs (contiguously)
in the haystack.  This is the semantics of a regular-expression exec of a
literal pattern, used as a boolean. -/
def containsSub (needle : List Char) : List Char → Bool
  | [] => needle.isEmpty
  | c :: rest => needle.isPrefixOf (c :: rest) || containsSub needle rest

/-- The Python traceback signature the export code greps diagnostic text for. -/
def tracebackSignature : String := "Traceback (most recent call last)"

/-- True when the message contains the Python traceback signature; this is the
regex test performed by ExportBase.isExportFailed. -/
def containsTraceback (s : String) : Bool :=
  containsSub tracebackSignature.toList s.toList

/-- JavaScript template-literal interpolation of a possibly-undefined string:
undefined is rendered as the literal text "undefined", not as the empty
string. -/
def jsInterpolate (v : Option String) : String :=
  match v with
  | none => "undefined"
  | some s => s

/-- JavaScript truthy-or on a possibly-undefined string (the expression
text or-else fallback): undefined and the empty string both select the
fallback. -/
def jsOrElse (t : Option String) (fallback : String) : String :=
  match t with
  | none => fallback
  | some s => if s = "" then fallback else s

/-- A structured kernel output message, as far as the export code inspects it:
a name, an output type, the (possibly multi-part) stream text, and the
plain-text payload of an execution result. -/
structure Output where
  name : String
  output_type : String
  text : List String
  dataTextPlain : Option String
deriving DecidableEq

/-- Modelled from the spec: concatMultilineString from the platform utilities
(not part of these sources) concatenates the parts of a multi-part output
text into one string. -/
def concatMultilineString (parts : List String) : String :=
  String.join parts

/-- The export formats handled by the switch in ExportBase.executeCommand.
Modelled from the spec: the ExportFormat enumeration itself lives outside
these sources; the spec fixes the members html, pdf and python (script). -/
inductive ExportFormat where
  | html
  | pdf
  | python
deriving DecidableEq

/-- The string value of an ExportFormat member (the enumeration is
string-valued, so this is what template literals interpolate). -/
def formatStr : ExportFormat → String
  | ExportFormat.html => "html"
  | ExportFormat.pdf => "pdf"
  | ExportFormat.python => "python"

/-- The file extension chosen by the switch in executeCommand. -/
def fileExtOf : ExportFormat → String
  | ExportFormat.html => ".html"
  | ExportFormat.pdf => ".pdf"
  | ExportFormat.python => ".py"

namespace ExportBase

/-- ExportBase.isExportFailed: a missing or empty diagnostic message counts as
failure, and otherwise the message fails exactly when it matches the Python
traceback pattern. -/
def isExportFailed (message : Option String) : Bool :=
  match message with
  | none => true
  | some s => if s = "" then true else containsTraceback s

/-- ExportBase.parseStreamOutput: no outputs yields no text; a first output
that is neither named stdout nor of stream type yields no text; otherwise the
multi-part text is concatenated and trimmed. -/
def parseStreamOutput (outputs : List Output) : Option String :=
  match outputs with
  | [] => none
  | o :: _ =>
    if o.name ≠ "stdout" && o.output_type ≠ "stream" then none
    else some (jsTrim (concatMultilineString o.text))

/-- ExportBase.getCWD: rechecks the kernel handle (throwing a session-disposed
error when absent), runs the working-directory probe, and parses the first
output: no outputs or a first output that is not an execution result yield
undefined; otherwise the plain-text payload (itself possibly undefined). -/
def getCWD (hasKernel : Bool) (probe : Except String (List Output)) :
    Except String (Option String) :=
  if !hasKernel then Except.error "SessionDisposedError"
  else
    match probe with
    | Except.error e => Except.error e
    | Except.ok outputs =>
      match outputs with
      | [] => Except.ok none
      | o :: _ =>
        if o.output_type ≠ "execute_result" then Except.ok none
        else Except.ok o.dataTextPlain

end ExportBase

/-- One externally visible action of the export orchestrator, recorded in the
order the source awaits the corresponding call. -/
inductive Effect where
  | kernelStart
  | createBackingFile
  | saveBackingFile
  | cwdProbe
  | newUntitled (ext : String)
  | nbconvert (sourcePath : String)
  | logText (text : String)
  | remoteRead (path : String)
  | localWrite
  | deleteTemp (path : String)
  | disposeBacking
  | deleteBacking (path : String)
  | disposeContentsManager
  | handlerCall
deriving DecidableEq

/-- True of the effect deleting the temporary output file. -/
def isDeleteTemp : Effect → Bool
  | Effect.deleteTemp _ => true
  | _ => false

/-- True of the effect deleting the backing file. -/
def isDeleteBacking : Effect → Bool
  | Effect.deleteBacking _ => true
  | _ => false

/-- Whether an external call succeeded. -/
def exceptIsOk {α : Type} (r : Except String α) : Bool :=
  match r with
  | Except.ok _ => true
  | Except.error _ => false

/-- The JavaScript promise combinator catch(noop): the outcome of the awaited
operation is discarded and the expression always resolves. -/
def catchNoop (_r : Except String Unit) : Except String Unit :=
  Except.ok ()

/-- JavaScript try/finally result combination: a result (value or error)
produced by the finally block replaces an error of the body only when the
finally block itself throws; otherwise the body result stands. -/
def finallyResult (body cleanupRes : Except String Unit) : Except String Unit :=
  match cleanupRes with
  | Except.error e => Except.error e
  | Except.ok _ => body

namespace ExportBase

/-- The outcomes of every external call awaited by ExportBase.executeCommand,
together with the host-visible state it branches on.  kernelAfterStart is the
truthiness of the session kernel handle at the guard following the optional
start. -/
structure ExecEnv where
  kernelExists : Bool
  hasSession : Bool
  startThrows : Bool
  kernelAfterStart : Bool
  isRemote : Bool
  hasResource : Bool
  createBackingResult : Except String (Option String)
  contentsParseOk : Bool
  cwdProbe : Except String (List Output)
  newUntitledResult : Except String String
  nbconvertOutputs : Except String (List Output)
  readResult : Except String String
  writeResult : Except String Unit
  deleteTempResult : Except String Unit
  disposeBackingResult : Except String Unit
  deleteBackingResult : Except String Unit

/-- The try block of executeCommand: working-directory probe, allocation of
the untitled temporary output file, the nbconvert invocation, diagnostic-text
classification, and the read of the converted file followed by the local
write.  Returns the body result, the value of the tempTarget variable at
exit, and the effect trace of the block. -/
def tryBody (env : ExecEnv) (format : ExportFormat) (backingPath : String) :
    Except String Unit × Option String × List Effect :=
  match getCWD env.kernelAfterStart env.cwdProbe with
  | Except.error e => (Except.error e, none, [Effect.cwdProbe])
  | Except.ok pwd =>
    match env.newUntitledResult with
    | Except.error e =>
      (Except.error e, none, [Effect.cwdProbe, Effect.newUntitled (fileExtOf format)])
    | Except.ok tempPath =>
      let filePath := jsInterpolate pwd ++ "/" ++ backingPath
      let t1 := [Effect.cwdProbe, Effect.newUntitled (fileExtOf format),
                 Effect.nbconvert filePath]
      match env.nbconvertOutputs with
      | Except.error e => (Except.error e, some tempPath, t1)
      | Except.ok outputs =>
        let text := parseStreamOutput outputs
        if isExportFailed text then
          (Except.error (jsOrElse text ("Failed to export to " ++ formatStr format)),
           some tempPath, t1)
        else
          let t2 := t1 ++ (match text with
            | some s => if s = "" then [] else [Effect.logText s]
            | none => [])
          match env.readResult with
          | Except.error e => (Except.error e, some tempPath, t2 ++ [Effect.remoteRead tempPath])
          | Except.ok _content =>
            let t3 := t2 ++ [Effect.remoteRead tempPath]
            match env.writeResult with
            | Except.error e => (Except.error e, some tempPath, t3 ++ [Effect.localWrite])
            | Except.ok _ => (Except.ok (), some tempPath, t3 ++ [Effect.localWrite])

/-- The finally block of executeCommand.  The deletion of the temporary
output file and the dispose of the backing file are awaited bare, so their
errors propagate and abort the rest of the block; the deletion of the backing
file is guarded by catch(noop), so its outcome is discarded; the contents
manager dispose is synchronous. -/
def cleanup (env : ExecEnv) (backingPath : String) (tempTarget : Option String) :
    Except String Unit × List Effect :=
  let rest : List Effect → Except String Unit × List Effect := fun t =>
    match env.disposeBackingResult with
    | Except.error e => (Except.error e, t ++ [Effect.disposeBacking])
    | Except.ok _ =>
      match catchNoop env.deleteBackingResult with
      | Except.error e =>
        (Except.error e, t ++ [Effect.disposeBacking, Effect.deleteBacking backingPath])
      | Except.ok _ =>
        (Except.ok (), t ++ [Effect.disposeBacking, Effect.deleteBacking backingPath,
                             Effect.disposeContentsManager])
  match tempTarget with
  | none => rest []
  | some p =>
    match env.deleteTempResult with
    | Except.error e => (Except.error e, [Effect.deleteTemp p])
    | Except.ok _ => rest [Effect.deleteTemp p]

/-- ExportBase.executeCommand: guard cascade (missing kernel, optional start,
missing kernel handle, non-remote connection, associated resource), backing
file creation and best-effort save, then the conversion try block with the
unconditional cleanup block, combined with try/finally semantics.  Connection
resolution and content extraction have no effects the claims observe and are
modelled as succeeding; the JSON parse of the notebook contents is the env
flag contentsParseOk, and its failure throws before the try block is
entered. -/
def executeCommand (env : ExecEnv) (format : ExportFormat) :
    Except String Unit × List Effect :=
  if !env.kernelExists then (Except.ok (), [])
  else
    let startTrace := if env.hasSession then [] else [Effect.kernelStart]
    if !env.hasSession && env.startThrows then
      (Except.error "kernel start failed", startTrace)
    else if !env.kernelAfterStart then (Except.ok (), startTrace)
    else if !env.isRemote then (Except.ok (), startTrace)
    else if env.hasResource then (Except.ok (), startTrace)
    else
      match env.createBackingResult with
      | Except.error e => (Except.error e, startTrace ++ [Effect.createBackingFile])
      | Except.ok none => (Except.ok (), startTrace ++ [Effect.createBackingFile])
      | Except.ok (some backingPath) =>
        if !env.contentsParseOk then
          (Except.error "JSON parse failed", startTrace ++ [Effect.createBackingFile])
        else
          let pre := startTrace ++ [Effect.createBackingFile, Effect.saveBackingFile]
          let body := tryBody env format backingPath
          let cln := cleanup env backingPath body.2.1
          (finallyResult body.1 cln.1, pre ++ body.2.2 ++ cln.2)

end ExportBase

namespace ExportBase

/-- The outcomes of the external calls awaited by
ExportBase.invokeWithFileSynced.  resourceEmpty is the falsiness of the
resource argument; createBackingResult distinguishes a rejected creation from
a creation resolving to no file; parse models the JSON parse of the contents
argument; the save itself is guarded by catch(noop). -/
structure SyncEnv where
  resourceEmpty : Bool
  createBackingResult : Except String (Option String)
  contentsParseOk : Bool
  handlerResult : Except String Unit
  disposeBackingResult : Except String Unit
  deleteBackingResult : Except String Unit

/-- ExportBase.invokeWithFileSynced: early return on an empty resource or a
missing backing file; best-effort save of the contents; the caller-supplied
handler; then the dispose of the backing file (awaited bare) and its deletion
(guarded by catch(noop)).  There is no try/finally around the handler call:
each awaited rejection simply propagates from the point it occurs. -/
def invokeWithFileSynced (env : SyncEnv) : Except String Unit × List Effect :=
  if env.resourceEmpty then (Except.ok (), [])
  else
    match env.createBackingResult with
    | Except.error e => (Except.error e, [Effect.createBackingFile])
    | Except.ok none => (Except.ok (), [Effect.createBackingFile])
    | Except.ok (some backingPath) =>
      if !env.contentsParseOk then
        (Except.error "JSON parse failed", [Effect.createBackingFile])
      else
        let t1 := [Effect.createBackingFile, Effect.saveBackingFile, Effect.handlerCall]
        match env.handlerResult with
        | Except.error e => (Except.error e, t1)
        | Except.ok _ =>
          match env.disposeBackingResult with
          | Except.error e => (Except.error e, t1 ++ [Effect.disposeBacking])
          | Except.ok _ =>
            match catchNoop env.deleteBackingResult with
            | Except.error e =>
              (Except.error e, t1 ++ [Effect.disposeBacking, Effect.deleteBacking backingPath])
            | Except.ok _ =>
              (Except.ok (), t1 ++ [Effect.disposeBacking, Effect.deleteBacking backingPath])

end ExportBase

/-- The leading data-url header strip of b64toBlob: the regular expression
(anchored at the start) removing one or more non-comma characters followed by
a comma.  With no comma, or a comma in first position, nothing matches and
the input is unchanged. -/
def dropDataUrlHeader (l : List Char) : List Char :=
  let pre := l.takeWhile (fun c => c ≠ ',')
  if pre.isEmpty then l
  else
    match l.drop pre.length with
    | ',' :: rest => rest
    | _ => l

/-- The global whitespace strip of b64toBlob (replace every whitespace-class
character by nothing). -/
def removeWs (l : List Char) : List Char :=
  l.filter (fun c => !isJsSpace c)

/-- The 512-character slicing loop of b64toBlob, generalized over the slice
size, written with a fuel argument equal to the input length (each iteration
consumes at least one character when the slice size is positive). -/
def slicesAux {α : Type} (n : Nat) : Nat → List α → List (List α)
  | _, [] => []
  | 0, _ :: _ => []
  | fuel + 1, c :: rest =>
    List.take n (c :: rest) :: slicesAux n fuel (List.drop (n - 1) rest)

/-- The list of consecutive slices of length at most n of a list. -/
def slices {α : Type} (n : Nat) (l : List α) : List (List α) :=
  slicesAux n l.length l

namespace ExportBase

/-- The character string produced by the two replace calls at the top of
ExportBase.b64toBlob, before base64 decoding. -/
def strippedB64 (b64Data : String) : String :=
  String.mk (removeWs (dropDataUrlHeader b64Data.toList))

/-- The byte content of the blob built by ExportBase.b64toBlob: strip the
data-url header and all whitespace, decode (atob is the external base64
decoder of the host, yielding a binary character string), then copy the
character codes slice by slice (512 characters at a time) into byte arrays,
which the blob concatenates.  Byte-array stores truncate to eight bits. -/
def b64toBlobBytes (atob : String → List Char) (b64Data : String) : List Nat :=
  let byteCharacters := atob (strippedB64 b64Data)
  let byteArrays := (slices 512 byteCharacters).map
    (fun slice => slice.map (fun c => c.toNat % 256))
  byteArrays.flatten

/-- The single-pass reading of the same decode: the stripped string is decoded
once and every character code is written out in order. -/
def decodeSinglePass (atob : String → List Char) (b64Data : String) : List Nat :=
  (atob (strippedB64 b64Data)).map (fun c => c.toNat % 256)

end ExportBase

/-- Placeholder for the host notebook-document handle (unused by the trivial
public export method). -/
structure NotebookDocument where
  key : Nat
deriving DecidableEq

/-- Placeholder for a host resource locator. -/
structure Uri where
  path : String
deriving DecidableEq

/-- Placeholder for an interpreter description. -/
structure PythonEnvironment where
  envId : Nat
deriving DecidableEq

/-- Placeholder for a host cancellation token. -/
structure CancellationToken where
  isCancellationRequested : Bool
deriving DecidableEq

namespace ExportBase

/-- The public method named export in the source (that word is a Lean
keyword): its entire body is a single return of undefined, so it resolves
with no value and performs no call at all. -/
def exportMethod (_sourceDocument : NotebookDocument) (_target : Uri)
    (_interpreter : PythonEnvironment) (_token : CancellationToken) :
    Except String Unit × List Effect :=
  (Except.ok (), [])

end ExportBase

/-- Lookup in an association list keyed by connection identifier (JavaScript
Map.get). -/
def lookupK (l : List (String × Nat)) (key : String) : Option Nat :=
  match l with
  | [] => none
  | (k, v) :: rest => if k = key then some v else lookupK rest key

/-- Insertion or in-place replacement in an association list (JavaScript
Map.set: an existing key keeps its position, a new key is appended). -/
def mapSet (l : List (String × Nat)) (key : String) (v : Nat) : List (String × Nat) :=
  match l with
  | [] => [(key, v)]
  | (k, v0) :: rest => if k = key then (key, v) :: rest else (k, v0) :: mapSet rest key v

namespace ConnectionDisplayDataProvider

/-- The state of a ConnectionDisplayDataProvider: the details map from
connection identifier to the entry object (entry objects are identified by
their allocation number), the allocation counter, and the process-wide
disposal registry.  The display fields of an entry (label, description,
detail, category, server name) are mutated in place by the asynchronous
refreshes and the interpreter-change subscription; those mutations never
touch the details map or the identity of an entry, so the state tracks
identities only. -/
structure DPState where
  details : List (String × Nat)
  nextId : Nat
  disposables : List Nat
deriving DecidableEq

/-- ConnectionDisplayDataProvider.getDisplayData, restricted to the map and
identity bookkeeping of the source: on a miss, a new entry object is
constructed, registered for disposal and stored under the connection
identifier; the entry for the identifier is then read back (the source uses a
non-null assertion) and re-stored under the same key; the entry is returned.
The two fire-and-forget refreshes only mutate fields of the returned entry
and swallow their failures; no branch ever deletes a map entry. -/
def getDisplayData (st : DPState) (connId : String) : Nat × DPState :=
  let st1 :=
    if (lookupK st.details connId).isSome then st
    else
      { details := mapSet st.details connId st.nextId,
        nextId := st.nextId + 1,
        disposables := st.nextId :: st.disposables }
  let e := (lookupK st1.details connId).getD 0
  (e, { st1 with details := mapSet st1.details connId e })

end ConnectionDisplayDataProvider

/-- The classified outcome of validateRemoteUri as observed by the server
selector: success, a self-signed-certificate error (with the outcome of the
trust prompt the handler then shows), an expired-certificate error (same),
an invalid-password error, or any other error. -/
inductive AddServerValidation where
  | success
  | selfCertsError (promptAccepted : Bool)
  | selfCertsExpiredError (promptAccepted : Bool)
  | invalidPasswordError
  | otherError
deriving DecidableEq

/-- The host-visible actions of the server selector. -/
inductive SelectorEffect where
  | telemetrySelfCertFailed
  | selfCertsPrompt
  | expiredCertsPrompt
  | reportError
  | storeAdd
deriving DecidableEq

namespace JupyterServerSelector

/-- JupyterServerSelector.addJupyterServerOld: validate the remote URI; on a
self-signed-certificate error send telemetry and prompt (an accepted prompt
falls through, a declined one returns); likewise for an expired certificate;
on an invalid-password error return silently; on any other error report it
through the structured error handler (with the generated identifier, the
provider and the underlying error) and return.  Only the fall-through paths
reach the store add.  The function returns the new store contents and the
effect trace. -/
def addJupyterServerOld (validation : AddServerValidation) (store : List String)
    (provider : String) : List String × List SelectorEffect :=
  match validation with
  | AddServerValidation.success => (store ++ [provider], [SelectorEffect.storeAdd])
  | AddServerValidation.selfCertsError accepted =>
    if accepted then
      (store ++ [provider],
       [SelectorEffect.telemetrySelfCertFailed, SelectorEffect.selfCertsPrompt,
        SelectorEffect.storeAdd])
    else
      (store, [SelectorEffect.telemetrySelfCertFailed, SelectorEffect.selfCertsPrompt])
  | AddServerValidation.selfCertsExpiredError accepted =>
    if accepted then
      (store ++ [provider],
       [SelectorEffect.telemetrySelfCertFailed, SelectorEffect.expiredCertsPrompt,
        SelectorEffect.storeAdd])
    else
      (store, [SelectorEffect.telemetrySelfCertFailed, SelectorEffect.expiredCertsPrompt])
  | AddServerValidation.invalidPasswordError => (store, [])
  | AddServerValidation.otherError => (store, [SelectorEffect.reportError])

end JupyterServerSelector

/-- Does the url regular expression of validateSelectJupyterURI match at this
position: the literal http colon slash slash, with an optional s, followed by
one or more non-whitespace characters, taken greedily.  Returns the matched
characters and the remainder. -/
def matchUrlAt (l : List Char) : Option (List Char × List Char) :=
  let tryAt : List Char → Option (List Char × List Char) := fun p =>
    if p.isPrefixOf l then
      let rest := l.drop p.length
      let taken := rest.takeWhile (fun c => !isJsSpace c)
      if taken.isEmpty then none
      else some (p ++ taken, rest.drop taken.length)
    else none
  match tryAt "https://".toList with
  | some r => some r
  | none => tryAt "http://".toList

/-- The markdown replacement the selector substitutes for a matched url. -/
def markdownLink (url : List Char) : List Char :=
  '[' :: url ++ (']' :: '(' :: url) ++ [')']

/-- The global regex replace of validateSelectJupyterURI on a character list,
with fuel equal to the input length (a match consumes at least eight
characters, a non-match consumes one). -/
def replaceUrlsAux : Nat → List Char → List Char
  | _, [] => []
  | 0, l => l
  | fuel + 1, c :: rest =>
    match matchUrlAt (c :: rest) with
    | some (url, rest2) => markdownLink url ++ replaceUrlsAux fuel rest2
    | none => c :: replaceUrlsAux fuel rest

/-- Replace every url substring of the message by its markdown-link form, as
the global regex replace in validateSelectJupyterURI does. -/
def replaceUrls (s : String) : String :=
  String.mk (replaceUrlsAux s.toList.length s.toList)

/-- The pieces of the external localization bundle the selector reads: three
fixed messages and the two one-argument connection-failure templates. -/
structure LocStrings where
  jupyterSelfCertFailErrorMessageOnly : String
  jupyterSelfCertExpiredErrorMessageOnly : String
  passwordFailure : String
  remoteJupyterConnectionFailedWithoutServerWithError : String → String
  remoteJupyterConnectionFailedWithoutServerWithErrorWeb : String → String

/-- The classified outcome of validateRemoteUri as observed by
validateSelectJupyterURI; error outcomes carry the error message (for a
generic error this is err.message, or the string rendering of the error when
the message is absent). -/
inductive UriValidationResult where
  | success
  | selfCertsError (handledByPrompt : Bool) (message : String)
  | selfCertsExpiredError (handledByPrompt : Bool) (message : String)
  | invalidPasswordError
  | genericError (message : String)

/-- validateSelectJupyterURI: undefined on successful validation and on a
certificate error whose trust prompt was accepted; the fixed certificate or
password messages otherwise; and for a generic error the localized
connection-failure template (web or desktop) applied to the error message
with every url substring rewritten as a markdown link. -/
def validateSelectJupyterURI (ds : LocStrings) (isWebExtension : Bool)
    (validation : UriValidationResult) : Option String :=
  match validation with
  | UriValidationResult.success => none
  | UriValidationResult.selfCertsError handled _ =>
    if handled then none else some ds.jupyterSelfCertFailErrorMessageOnly
  | UriValidationResult.selfCertsExpiredError handled _ =>
    if handled then none else some ds.jupyterSelfCertExpiredErrorMessageOnly
  | UriValidationResult.invalidPasswordError => some ds.passwordFailure
  | UriValidationResult.genericError msg =>
    some ((if isWebExtension then ds.remoteJupyterConnectionFailedWithoutServerWithErrorWeb
           else ds.remoteJupyterConnectionFailedWithoutServerWithError) (replaceUrls msg))

/-! Helper lemmas shared by the claim theorems. -/

theorem slicesAux_flatten {α : Type} (n : Nat) (hn : 0 < n) :
    ∀ (fuel : Nat) (l : List α), l.length ≤ fuel → (slicesAux n fuel l).flatten = l := by
  intro fuel
  induction fuel with
  | zero =>
    intro l hl
    cases l with
    | nil => rfl
    | cons c rest => simp at hl
  | succ fuel ih =>
    intro l hl
    cases l with
    | nil => rfl
    | cons c rest =>
      obtain ⟨m, rfl⟩ : ∃ m, n = m + 1 := ⟨n - 1, by omega⟩
      simp only [slicesAux, List.flatten_cons, Nat.add_sub_cancel]
      rw [ih (List.drop m rest)]
      · rw [← List.drop_succ_cons (a := c), List.take_append_drop]
      · have hlen := List.length_drop m rest
        simp only [List.length_cons] at hl
        omega

theorem slices_flatten {α : Type} (n : Nat) (hn : 0 < n) (l : List α) :
    (slices n l).flatten = l :=
  slicesAux_flatten n hn l.length l (Nat.le_refl _)

theorem containsTraceback_ne_empty {t : String} (h : containsTraceback t = true) : ¬(t = "") := by
  intro he
  subst he
  simp [containsTraceback, containsSub, tracebackSignature] at h

theorem lookupK_mapSet_self (l : List (String × Nat)) (k : String) (v : Nat) :
    lookupK (mapSet l k v) k = some v := by
  induction l with
  | nil => simp [mapSet, lookupK]
  | cons p rest ih =>
    by_cases h : p.1 = k
    · simp [mapSet, lookupK, h]
    · simp [mapSet, lookupK, h, ih]

theorem lookupK_mapSet_ne (l : List (String × Nat)) (k k2 : String) (v : Nat)
    (h : ¬(k2 = k)) : lookupK (mapSet l k v) k2 = lookupK l k2 := by
  induction l with
  | nil =>
    simp only [mapSet, lookupK]
    rw [if_neg (fun he : k = k2 => h he.symm)]
  | cons p rest ih =>
    by_cases hp : p.1 = k
    · simp only [mapSet, if_pos hp, lookupK]
      rw [if_neg (fun he : k = k2 => h he.symm),
          if_neg (fun he : p.1 = k2 => h ((hp.symm.trans he).symm))]
    · simp only [mapSet, if_neg hp, lookupK]
      by_cases hq : p.1 = k2
      · rw [if_pos hq, if_pos hq]
      · rw [if_neg hq, if_neg hq, ih]

theorem mapSet_self_of_lookup (l : List (String × Nat)) (k : String) (v : Nat)
    (h : lookupK l k = some v) : mapSet l k v = l := by
  induction l with
  | nil => simp [lookupK] at h
  | cons p rest ih =>
    by_cases hp : p.1 = k
    · simp only [lookupK, if_pos hp] at h
      cases h
      simp only [mapSet, if_pos hp]
      rw [← hp]
    · simp only [lookupK, if_neg hp] at h
      simp [mapSet, hp, ih h]

theorem lookupK_none_not_mem (l : List (String × Nat)) (k : String)
    (h : lookupK l k = none) : ¬(k ∈ l.map Prod.fst) := by
  induction l with
  | nil => simp
  | cons p rest ih =>
    by_cases hp : p.1 = k
    · simp [lookupK, hp] at h
    · simp only [lookupK, if_neg hp] at h
      simp only [List.map_cons, List.mem_cons]
      rintro (rfl | hm)
      · exact hp rfl
      · exact ih h hm

theorem map_fst_mapSet_of_none (l : List (String × Nat)) (k : String) (v : Nat)
    (h : lookupK l k = none) : (mapSet l k v).map Prod.fst = l.map Prod.fst ++ [k] := by
  induction l with
  | nil => simp [mapSet]
  | cons p rest ih =>
    by_cases hp : p.1 = k
    · simp [lookupK, hp] at h
    · simp only [lookupK, if_neg hp] at h
      simp [mapSet, hp, ih h]

/-- C10: the public method named export in the source resolves to undefined on
every input and performs no effects at all; the export behaviour lives only in
executeCommand. -/
theorem exportMethod_is_total_noop (d : NotebookDocument) (t : Uri)
    (i : PythonEnvironment) (tok : CancellationToken) :
    ExportBase.exportMethod d t i tok = (Except.ok (), []) := rfl

/-- C9: the byte sequence the pdf decoding routine b64toBlob writes out, built
by copying the decoded characters in 512-character slices, equals the byte
sequence of decoding the stripped base64 payload in a single pass: the
chunking is unobservable. -/
theorem b64toBlob_chunking_unobservable (atob : String → List Char) (b64Data : String) :
    ExportBase.b64toBlobBytes atob b64Data = ExportBase.decodeSinglePass atob b64Data := by
  unfold ExportBase.b64toBlobBytes ExportBase.decodeSinglePass
  rw [← List.map_flatten, slices_flatten 512 (by omega)]

/-- C7: under the legacy registration path, the server URI store receives the
provider exactly when validation succeeds or a certificate trust prompt is
accepted; on a declined prompt, an invalid-password error or any other error
the store is left unmodified, and a declined self-signed-certificate error
still shows the trust prompt. -/
theorem addJupyterServerOld_store_update (v : AddServerValidation)
    (store : List String) (p : String) :
    ((JupyterServerSelector.addJupyterServerOld v store p).1 =
      if v = AddServerValidation.success ∨ v = AddServerValidation.selfCertsError true ∨
          v = AddServerValidation.selfCertsExpiredError true
      then store ++ [p] else store) ∧
    (JupyterServerSelector.addJupyterServerOld
        (AddServerValidation.selfCertsError false) store p).2 =
      [SelectorEffect.telemetrySelfCertFailed, SelectorEffect.selfCertsPrompt] := by
  constructor
  · cases v with
    | success => simp [JupyterServerSelector.addJupyterServerOld]
    | selfCertsError accepted =>
      cases accepted <;> simp [JupyterServerSelector.addJupyterServerOld]
    | selfCertsExpiredError accepted =>
      cases accepted <;> simp [JupyterServerSelector.addJupyterServerOld]
    | invalidPasswordError => simp [JupyterServerSelector.addJupyterServerOld]
    | otherError => simp [JupyterServerSelector.addJupyterServerOld]
  · rfl

/-- C8: validateSelectJupyterURI returns undefined on successful validation,
and on a generic validation error it returns the localized connection-failure
template applied to the error message with every http or https url substring
rewritten as a markdown link, as the concrete rewriting below illustrates. -/
theorem validateSelectJupyterURI_success_and_generic (ds : LocStrings) (isWeb : Bool) :
    validateSelectJupyterURI ds isWeb UriValidationResult.success = none ∧
    (∀ msg, validateSelectJupyterURI ds isWeb (UriValidationResult.genericError msg) =
      some ((if isWeb then ds.remoteJupyterConnectionFailedWithoutServerWithErrorWeb
             else ds.remoteJupyterConnectionFailedWithoutServerWithError)
        (replaceUrls msg))) ∧
    replaceUrls "Failed to reach https://jupyter.example.org:8888/lab check http://10.0.0.5/login" =
      String.append "Failed to reach [https://jupyter.example.org:8888/lab](https://jupyter.example.org:8888/lab)"
        " check [http://10.0.0.5/login](http://10.0.0.5/login)" :=
  ⟨rfl, fun _ => rfl, by decide⟩

theorem getDisplayData_hit (st : ConnectionDisplayDataProvider.DPState) (connId : String)
    (v : Nat) (h : lookupK st.details connId = some v) :
    ConnectionDisplayDataProvider.getDisplayData st connId = (v, st) := by
  simp only [ConnectionDisplayDataProvider.getDisplayData, h, Option.isSome_some, if_true,
    Option.getD_some, mapSet_self_of_lookup _ _ _ h]

theorem getDisplayData_miss (st : ConnectionDisplayDataProvider.DPState) (connId : String)
    (h : lookupK st.details connId = none) :
    ConnectionDisplayDataProvider.getDisplayData st connId =
      (st.nextId,
       { details := mapSet st.details connId st.nextId,
         nextId := st.nextId + 1,
         disposables := st.nextId :: st.disposables }) := by
  have hs : lookupK (mapSet st.details connId st.nextId) connId = some st.nextId :=
    lookupK_mapSet_self _ _ _
  simp only [ConnectionDisplayDataProvider.getDisplayData, h, Option.isSome_none,
    Bool.false_eq_true, if_false, hs, Option.getD_some, mapSet_self_of_lookup _ _ _ hs]

/-- C6: getDisplayData called twice with the same connection identity returns
the same entry both times and the second call leaves the state unchanged; the
details map keeps at most one entry per connection identifier; and no entry
present before a call is ever removed by it. -/
theorem getDisplayData_memoized (st : ConnectionDisplayDataProvider.DPState) (connId : String)
    (hnd : List.Nodup (st.details.map Prod.fst)) :
    (ConnectionDisplayDataProvider.getDisplayData
        (ConnectionDisplayDataProvider.getDisplayData st connId).2 connId).1 =
      (ConnectionDisplayDataProvider.getDisplayData st connId).1 ∧
    (ConnectionDisplayDataProvider.getDisplayData
        (ConnectionDisplayDataProvider.getDisplayData st connId).2 connId).2 =
      (ConnectionDisplayDataProvider.getDisplayData st connId).2 ∧
    List.Nodup ((ConnectionDisplayDataProvider.getDisplayData st connId).2.details.map
      Prod.fst) ∧
    ∀ k v, lookupK st.details k = some v →
      lookupK (ConnectionDisplayDataProvider.getDisplayData st connId).2.details k = some v := by
  cases hl : lookupK st.details connId with
  | some v =>
    rw [getDisplayData_hit st connId v hl]
    refine ⟨?_, ?_, hnd, ?_⟩
    · rw [getDisplayData_hit st connId v hl]
    · rw [getDisplayData_hit st connId v hl]
    · intro k v2 hk
      exact hk
  | none =>
    rw [getDisplayData_miss st connId hl]
    have hs : lookupK (mapSet st.details connId st.nextId) connId = some st.nextId :=
      lookupK_mapSet_self _ _ _
    refine ⟨?_, ?_, ?_, ?_⟩
    · rw [getDisplayData_hit _ connId st.nextId hs]
    · rw [getDisplayData_hit _ connId st.nextId hs]
    · show List.Nodup ((mapSet st.details connId st.nextId).map Prod.fst)
      rw [map_fst_mapSet_of_none _ _ _ hl]
      have hnm := lookupK_none_not_mem _ _ hl
      simp [List.nodup_append, hnd, List.disjoint_left]
      intro a ha
      exact hnm (List.mem_map_of_mem Prod.fst ha)
    · intro k v hk
      have hkne : ¬(k = connId) := by
        intro he
        rw [he, hl] at hk
        exact Option.noConfusion hk
      show lookupK (mapSet st.details connId st.nextId) k = some v
      rw [lookupK_mapSet_ne _ _ _ _ hkne]
      exact hk

/-- C6 witness: concrete run of the memoization theorem from the empty state. -/
theorem getDisplayData_memoized_witness :
    (ConnectionDisplayDataProvider.getDisplayData
        (ConnectionDisplayDataProvider.getDisplayData ⟨[], 0, []⟩ "remote-conn").2
        "remote-conn").1 =
      (ConnectionDisplayDataProvider.getDisplayData ⟨[], 0, []⟩ "remote-conn").1 ∧
    (ConnectionDisplayDataProvider.getDisplayData
        (ConnectionDisplayDataProvider.getDisplayData ⟨[], 0, []⟩ "remote-conn").2
        "remote-conn").2 =
      (ConnectionDisplayDataProvider.getDisplayData ⟨[], 0, []⟩ "remote-conn").2 ∧
    List.Nodup ((ConnectionDisplayDataProvider.getDisplayData ⟨[], 0, []⟩
      "remote-conn").2.details.map Prod.fst) ∧
    ∀ k v, lookupK (ConnectionDisplayDataProvider.DPState.mk [] 0 []).details k = some v →
      lookupK (ConnectionDisplayDataProvider.getDisplayData ⟨[], 0, []⟩
        "remote-conn").2.details k = some v :=
  getDisplayData_memoized ⟨[], 0, []⟩ "remote-conn" (by simp)

theorem getCWD_ok_of_probe_ok (outs : List Output) :
    ∃ p, ExportBase.getCWD true (Except.ok outs) = Except.ok p := by
  cases outs with
  | nil => exact ⟨none, rfl⟩
  | cons o rest =>
    by_cases h : o.output_type = "execute_result"
    · exact ⟨o.dataTextPlain, by simp [ExportBase.getCWD, h]⟩
    · exact ⟨none, by simp [ExportBase.getCWD, h]⟩

theorem cleanup_ok (env : ExportBase.ExecEnv) (bp : String) (tt : Option String)
    (h1 : env.deleteTempResult = Except.ok ())
    (h2 : env.disposeBackingResult = Except.ok ()) :
    ExportBase.cleanup env bp tt =
      (Except.ok (),
       (match tt with | some p => [Effect.deleteTemp p] | none => []) ++
         [Effect.disposeBacking, Effect.deleteBacking bp, Effect.disposeContentsManager]) := by
  cases tt <;> simp [ExportBase.cleanup, h1, h2, catchNoop]

theorem tryBody_no_deletions (env : ExportBase.ExecEnv) (format : ExportFormat) (bp : String) :
    List.countP isDeleteTemp (ExportBase.tryBody env format bp).2.2 = 0 ∧
    List.countP isDeleteBacking (ExportBase.tryBody env format bp).2.2 = 0 := by
  unfold ExportBase.tryBody
  cases hgc : ExportBase.getCWD env.kernelAfterStart env.cwdProbe with
  | error e => simp [isDeleteTemp, isDeleteBacking]
  | ok pwd =>
    cases hnu : env.newUntitledResult with
    | error e => simp [isDeleteTemp, isDeleteBacking]
    | ok tp =>
      cases hnb : env.nbconvertOutputs with
      | error e => simp [isDeleteTemp, isDeleteBacking]
      | ok outs =>
        dsimp only
        by_cases hf : ExportBase.isExportFailed (ExportBase.parseStreamOutput outs) = true
        · simp [hf, isDeleteTemp, isDeleteBacking]
        · rw [if_neg hf]
          cases hrd : env.readResult with
          | error e =>
            cases ht : ExportBase.parseStreamOutput outs with
            | none => simp [isDeleteTemp, isDeleteBacking]
            | some s =>
              by_cases hs : s = "" <;>
                simp [hs, isDeleteTemp, isDeleteBacking, List.countP_append, List.countP_cons]
          | ok c =>
            cases hwr : env.writeResult with
            | error e =>
              cases ht : ExportBase.parseStreamOutput outs with
              | none => simp [isDeleteTemp, isDeleteBacking]
              | some s =>
                by_cases hs : s = "" <;>
                  simp [hs, isDeleteTemp, isDeleteBacking, List.countP_append, List.countP_cons]
            | ok u =>
              cases ht : ExportBase.parseStreamOutput outs with
              | none => simp [isDeleteTemp, isDeleteBacking]
              | some s =>
                by_cases hs : s = "" <;>
                  simp [hs, isDeleteTemp, isDeleteBacking, List.countP_append, List.countP_cons]

theorem tryBody_tempTarget (env : ExportBase.ExecEnv) (format : ExportFormat) (bp : String)
    (hka : env.kernelAfterStart = true) :
    ((ExportBase.tryBody env format bp).2.1).isSome =
      (exceptIsOk env.cwdProbe && exceptIsOk env.newUntitledResult) := by
  unfold ExportBase.tryBody
  rw [hka]
  cases hcw : env.cwdProbe with
  | error e => simp [ExportBase.getCWD, exceptIsOk]
  | ok couts =>
    obtain ⟨pwd, hgc⟩ := getCWD_ok_of_probe_ok couts
    rw [hgc]
    cases hnu : env.newUntitledResult with
    | error e => simp [exceptIsOk]
    | ok tp =>
      simp only [exceptIsOk]
      repeat' split
      all_goals simp

theorem executeCommand_run (env : ExportBase.ExecEnv) (format : ExportFormat) (bp : String)
    (hk : env.kernelExists = true) (hst : env.hasSession = false → env.startThrows = false)
    (hka : env.kernelAfterStart = true) (hr : env.isRemote = true)
    (hres : env.hasResource = false)
    (hb : env.createBackingResult = Except.ok (some bp)) (hp : env.contentsParseOk = true) :
    ExportBase.executeCommand env format =
      (finallyResult (ExportBase.tryBody env format bp).1
         (ExportBase.cleanup env bp (ExportBase.tryBody env format bp).2.1).1,
       (if env.hasSession then [] else [Effect.kernelStart]) ++
         [Effect.createBackingFile, Effect.saveBackingFile] ++
         (ExportBase.tryBody env format bp).2.2 ++
         (ExportBase.cleanup env bp (ExportBase.tryBody env format bp).2.1).2) := by
  unfold ExportBase.executeCommand
  rw [hk, hka, hr, hres, hb]
  cases hss : env.hasSession with
  | true => simp [hp]
  | false => simp [hp, hst hss]

theorem executeCommand_ignores_deleteBackingResult (env : ExportBase.ExecEnv)
    (r : Except String Unit) (format : ExportFormat) :
    ExportBase.executeCommand { env with deleteBackingResult := r } format =
      ExportBase.executeCommand env format := by
  cases env
  rfl

/-- C1 (amended): for every run that reaches a successfully created backing
file with a parseable notebook payload, if the temporary-file deletion and
the backing-file dispose succeed then cleanup deletes the backing file
exactly once and the temporary output file exactly once when one was
allocated (zero times otherwise), regardless of whether the conversion, the
remote read or the local write failed; and the outcome of the backing-file
deletion itself is discarded, never surfacing to the caller. -/
theorem executeCommand_cleanup_deletes_once (env : ExportBase.ExecEnv) (format : ExportFormat)
    (bp : String)
    (hk : env.kernelExists = true) (hst : env.hasSession = false → env.startThrows = false)
    (hka : env.kernelAfterStart = true) (hr : env.isRemote = true)
    (hres : env.hasResource = false)
    (hb : env.createBackingResult = Except.ok (some bp)) (hp : env.contentsParseOk = true)
    (hdt : env.deleteTempResult = Except.ok ())
    (hdb : env.disposeBackingResult = Except.ok ()) :
    List.countP isDeleteBacking (ExportBase.executeCommand env format).2 = 1 ∧
    List.countP isDeleteTemp (ExportBase.executeCommand env format).2 =
      (if exceptIsOk env.cwdProbe && exceptIsOk env.newUntitledResult then 1 else 0) ∧
    ∀ r, ExportBase.executeCommand { env with deleteBackingResult := r } format =
      ExportBase.executeCommand env format := by
  refine ⟨?_, ?_, fun r => executeCommand_ignores_deleteBackingResult env r format⟩
  · rw [executeCommand_run env format bp hk hst hka hr hres hb hp,
        cleanup_ok env bp _ hdt hdb]
    obtain ⟨hd1, hd2⟩ := tryBody_no_deletions env format bp
    cases htt : (ExportBase.tryBody env format bp).2.1 <;>
      cases hss : env.hasSession <;>
        simp [List.countP_append, List.countP_cons, hd2, isDeleteBacking]
  · rw [executeCommand_run env format bp hk hst hka hr hres hb hp,
        cleanup_ok env bp _ hdt hdb]
    obtain ⟨hd1, hd2⟩ := tryBody_no_deletions env format bp
    have htts := tryBody_tempTarget env format bp hka
    cases htt : (ExportBase.tryBody env format bp).2.1 with
    | none =>
      rw [htt] at htts
      simp only [Option.isSome_none] at htts
      rw [← htts]
      cases hss : env.hasSession <;>
        simp [List.countP_append, List.countP_cons, hd1, isDeleteTemp]
    | some p =>
      rw [htt] at htts
      simp only [Option.isSome_some] at htts
      rw [← htts]
      cases hss : env.hasSession <;>
        simp [List.countP_append, List.countP_cons, hd1, isDeleteTemp]

/-- A fully successful export run over a remote kernel with an active
session: every external call resolves. -/
def envExportAllOk : ExportBase.ExecEnv :=
  { kernelExists := true, hasSession := true, startThrows := false,
    kernelAfterStart := true, isRemote := true, hasResource := false,
    createBackingResult := Except.ok (some "nb.ipynb"), contentsParseOk := true,
    cwdProbe := Except.ok [{ name := "", output_type := "execute_result",
                             text := [], dataTextPlain := some "/home/user" }],
    newUntitledResult := Except.ok "Untitled.html",
    nbconvertOutputs := Except.ok [{ name := "stdout", output_type := "stream",
                                     text := ["converted ok"], dataTextPlain := none }],
    readResult := Except.ok "result body", writeResult := Except.ok (),
    deleteTempResult := Except.ok (), disposeBackingResult := Except.ok (),
    deleteBackingResult := Except.ok () }

/-- C1 witness: the cleanup theorem instantiated on the fully successful
run. -/
theorem executeCommand_cleanup_deletes_once_witness :
    List.countP isDeleteBacking
      (ExportBase.executeCommand envExportAllOk ExportFormat.html).2 = 1 ∧
    List.countP isDeleteTemp (ExportBase.executeCommand envExportAllOk ExportFormat.html).2 =
      (if exceptIsOk envExportAllOk.cwdProbe && exceptIsOk envExportAllOk.newUntitledResult
       then 1 else 0) ∧
    ∀ r, ExportBase.executeCommand { envExportAllOk with deleteBackingResult := r }
        ExportFormat.html = ExportBase.executeCommand envExportAllOk ExportFormat.html :=
  executeCommand_cleanup_deletes_once envExportAllOk ExportFormat.html "nb.ipynb"
    rfl (fun _ => rfl) rfl rfl rfl rfl rfl rfl rfl

/-- The same run except that the deletion of the temporary output file
rejects. -/
def envTempDeleteFails : ExportBase.ExecEnv :=
  { envExportAllOk with deleteTempResult := Except.error "EPERM" }

/-- C1 counterexample: in a run where the backing file is successfully
created and the conversion, the remote read and the local write all succeed,
a failing deletion of the temporary output file is surfaced to the caller as
an error, and the backing file is deleted zero times rather than exactly
once. -/
theorem executeCommand_tempDelete_failure_surfaces :
    envTempDeleteFails.createBackingResult = Except.ok (some "nb.ipynb") ∧
    (ExportBase.executeCommand envTempDeleteFails ExportFormat.html).1 =
      Except.error "EPERM" ∧
    List.countP isDeleteBacking
      (ExportBase.executeCommand envTempDeleteFails ExportFormat.html).2 = 0 :=
  ⟨rfl, rfl, rfl⟩

/-- C3 (amended): when the kernel provider returns no kernel, or the kernel
session (after the attempted start performed when no session exists) lacks an
underlying kernel handle, executeCommand resolves without error and its only
possible effect is the kernel start attempt: no remote file is created, no
kernel code is executed, and no local write occurs.  When a start does yield
a live kernel, the code proceeds with the full export instead. -/
theorem executeCommand_no_kernel_handle_noop (env : ExportBase.ExecEnv) (format : ExportFormat)
    (h1 : env.kernelAfterStart = false)
    (h2 : env.hasSession = false → env.startThrows = false) :
    (ExportBase.executeCommand env format).1 = Except.ok () ∧
    ∀ e ∈ (ExportBase.executeCommand env format).2, e = Effect.kernelStart := by
  unfold ExportBase.executeCommand
  cases hke : env.kernelExists with
  | false => simp
  | true =>
    cases hss : env.hasSession with
    | true => simp [h1]
    | false => simp [h1, h2 hss]

/-- A run in which the kernel exists but its session has no underlying kernel
handle. -/
def envNoKernelHandle : ExportBase.ExecEnv :=
  { envExportAllOk with kernelAfterStart := false }

/-- C3 witness: the no-kernel-handle theorem instantiated on a concrete run. -/
theorem executeCommand_no_kernel_handle_noop_witness :
    (ExportBase.executeCommand envNoKernelHandle ExportFormat.pdf).1 = Except.ok () ∧
    ∀ e ∈ (ExportBase.executeCommand envNoKernelHandle ExportFormat.pdf).2,
      e = Effect.kernelStart :=
  executeCommand_no_kernel_handle_noop envNoKernelHandle ExportFormat.pdf rfl (fun _ => rfl)

/-- The fully successful run, but with no active session initially, so the
guard starts the kernel. -/
def envNoSessionExports : ExportBase.ExecEnv :=
  { envExportAllOk with hasSession := false }

/-- C3 counterexample: a call on a document whose kernel has no active
session does not no-op; it starts the kernel and proceeds to a full export,
creating a remote backing file, executing the conversion inside the kernel
and performing a local filesystem write. -/
theorem executeCommand_no_session_still_exports :
    envNoSessionExports.hasSession = false ∧
    Effect.kernelStart ∈ (ExportBase.executeCommand envNoSessionExports ExportFormat.html).2 ∧
    Effect.createBackingFile ∈
      (ExportBase.executeCommand envNoSessionExports ExportFormat.html).2 ∧
    Effect.nbconvert "/home/user/nb.ipynb" ∈
      (ExportBase.executeCommand envNoSessionExports ExportFormat.html).2 ∧
    Effect.localWrite ∈ (ExportBase.executeCommand envNoSessionExports ExportFormat.html).2 := by
  refine ⟨rfl, ?_, ?_, ?_, ?_⟩ <;> decide

/-- C4: in a run that reaches the conversion step, a first-output diagnostic
text containing the Python traceback signature is raised as an error carrying
that text; an absent diagnostic text is raised as the generic failure message
naming the format; and a non-empty text without the signature is logged and
raises nothing. -/
theorem executeCommand_diagnostic_classification (env : ExportBase.ExecEnv)
    (format : ExportFormat) (bp tp c : String) (couts outs : List Output)
    (hk : env.kernelExists = true) (hst : env.hasSession = false → env.startThrows = false)
    (hka : env.kernelAfterStart = true) (hr : env.isRemote = true)
    (hres : env.hasResource = false)
    (hb : env.createBackingResult = Except.ok (some bp)) (hp : env.contentsParseOk = true)
    (hcw : env.cwdProbe = Except.ok couts)
    (hnu : env.newUntitledResult = Except.ok tp)
    (hnb : env.nbconvertOutputs = Except.ok outs)
    (hrd : env.readResult = Except.ok c) (hwr : env.writeResult = Except.ok ())
    (hdt : env.deleteTempResult = Except.ok ())
    (hdb : env.disposeBackingResult = Except.ok ()) :
    (ExportBase.parseStreamOutput outs = none →
      (ExportBase.executeCommand env format).1 =
        Except.error ("Failed to export to " ++ formatStr format)) ∧
    (∀ t, ExportBase.parseStreamOutput outs = some t → containsTraceback t = true →
      (ExportBase.executeCommand env format).1 = Except.error t) ∧
    (∀ t, ExportBase.parseStreamOutput outs = some t → ¬(t = "") →
      containsTraceback t = false →
      (ExportBase.executeCommand env format).1 = Except.ok () ∧
      Effect.logText t ∈ (ExportBase.executeCommand env format).2) := by
  obtain ⟨pwd, hgc⟩ := getCWD_ok_of_probe_ok couts
  have htb : ExportBase.tryBody env format bp =
      (if ExportBase.isExportFailed (ExportBase.parseStreamOutput outs) then
        (Except.error (jsOrElse (ExportBase.parseStreamOutput outs)
           ("Failed to export to " ++ formatStr format)), some tp,
         [Effect.cwdProbe, Effect.newUntitled (fileExtOf format),
          Effect.nbconvert (jsInterpolate pwd ++ "/" ++ bp)])
       else
        (Except.ok (), some tp,
         ([Effect.cwdProbe, Effect.newUntitled (fileExtOf format),
           Effect.nbconvert (jsInterpolate pwd ++ "/" ++ bp)] ++
          (match ExportBase.parseStreamOutput outs with
           | some s => if s = "" then [] else [Effect.logText s]
           | none => [])) ++
         [Effect.remoteRead tp] ++ [Effect.localWrite])) := by
    unfold ExportBase.tryBody
    rw [hka, hcw, hgc, hnu, hnb, hrd, hwr]
  rw [executeCommand_run env format bp hk hst hka hr hres hb hp,
      cleanup_ok env bp _ hdt hdb]
  refine ⟨?_, ?_, ?_⟩
  · intro hpt
    rw [htb, hpt]
    simp [ExportBase.isExportFailed, jsOrElse, finallyResult]
  · intro t hpt htr
    have hne := containsTraceback_ne_empty htr
    rw [htb, hpt]
    simp [ExportBase.isExportFailed, hne, htr, jsOrElse, finallyResult]
  · intro t hpt hne htr
    rw [htb, hpt]
    simp [ExportBase.isExportFailed, hne, htr, finallyResult, List.mem_append]

/-- C4 witness: the classification theorem instantiated on the fully
successful run, whose diagnostic text is non-empty without a traceback. -/
theorem executeCommand_diagnostic_classification_witness :
    (ExportBase.parseStreamOutput
        [{ name := "stdout", output_type := "stream",
           text := ["converted ok"], dataTextPlain := none }] = none →
      (ExportBase.executeCommand envExportAllOk ExportFormat.html).1 =
        Except.error ("Failed to export to " ++ formatStr ExportFormat.html)) ∧
    (∀ t, ExportBase.parseStreamOutput
        [{ name := "stdout", output_type := "stream",
           text := ["converted ok"], dataTextPlain := none }] = some t →
      containsTraceback t = true →
      (ExportBase.executeCommand envExportAllOk ExportFormat.html).1 = Except.error t) ∧
    (∀ t, ExportBase.parseStreamOutput
        [{ name := "stdout", output_type := "stream",
           text := ["converted ok"], dataTextPlain := none }] = some t →
      ¬(t = "") → containsTraceback t = false →
      (ExportBase.executeCommand envExportAllOk ExportFormat.html).1 = Except.ok () ∧
      Effect.logText t ∈ (ExportBase.executeCommand envExportAllOk ExportFormat.html).2) :=
  executeCommand_diagnostic_classification envExportAllOk ExportFormat.html
    "nb.ipynb" "Untitled.html" "result body"
    [{ name := "", output_type := "execute_result", text := [],
       dataTextPlain := some "/home/user" }]
    [{ name := "stdout", output_type := "stream", text := ["converted ok"],
       dataTextPlain := none }]
    rfl (fun _ => rfl) rfl rfl rfl rfl rfl rfl rfl rfl rfl rfl rfl rfl

/-- C5 (amended): when the working-directory probe yields no outputs or a
first output that is not an execution result, getCWD returns undefined, and
the source path handed to the nbconvert command interpolates the literal text
undefined: it is the string undefined, a slash, then the backing path. -/
theorem executeCommand_undefined_cwd_concat (env : ExportBase.ExecEnv) (format : ExportFormat)
    (bp tp : String) (couts : List Output)
    (hk : env.kernelExists = true) (hst : env.hasSession = false → env.startThrows = false)
    (hka : env.kernelAfterStart = true) (hr : env.isRemote = true)
    (hres : env.hasResource = false)
    (hb : env.createBackingResult = Except.ok (some bp)) (hp : env.contentsParseOk = true)
    (hcw : env.cwdProbe = Except.ok couts)
    (houts : couts = [] ∨ ∃ o rest, couts = o :: rest ∧ ¬(o.output_type = "execute_result"))
    (hnu : env.newUntitledResult = Except.ok tp) :
    ExportBase.getCWD true (Except.ok couts) = Except.ok none ∧
    Effect.nbconvert ("undefined/" ++ bp) ∈ (ExportBase.executeCommand env format).2 := by
  have hgc : ExportBase.getCWD true (Except.ok couts) = Except.ok none := by
    rcases houts with rfl | ⟨o, rest, rfl, ho⟩
    · rfl
    · simp [ExportBase.getCWD, ho]
  refine ⟨hgc, ?_⟩
  rw [executeCommand_run env format bp hk hst hka hr hres hb hp]
  have hpath : jsInterpolate none ++ "/" ++ bp = "undefined/" ++ bp := rfl
  have hmem : Effect.nbconvert ("undefined/" ++ bp) ∈ (ExportBase.tryBody env format bp).2.2 := by
    unfold ExportBase.tryBody
    rw [hka, hcw, hgc, hnu]
    cases hnb : env.nbconvertOutputs with
    | error e => simp [hpath]
    | ok outs =>
      dsimp only
      by_cases hf : ExportBase.isExportFailed (ExportBase.parseStreamOutput outs) = true
      · simp [hf, hpath]
      · rw [if_neg hf]
        cases hrd : env.readResult with
        | error e => simp [hpath]
        | ok c =>
          cases hwr : env.writeResult with
          | error e => simp [hpath]
          | ok u => simp [hpath]
  simp [List.mem_append, hmem]

/-- The fully successful run, but with a working-directory probe returning no
outputs at all. -/
def envCwdEmptyOuts : ExportBase.ExecEnv :=
  { envExportAllOk with cwdProbe := Except.ok [] }

/-- C5 witness: the undefined-concatenation theorem instantiated on the run
with an empty probe result. -/
theorem executeCommand_undefined_cwd_concat_witness :
    ExportBase.getCWD true (Except.ok ([] : List Output)) = Except.ok none ∧
    Effect.nbconvert ("undefined/" ++ "nb.ipynb") ∈
      (ExportBase.executeCommand envCwdEmptyOuts ExportFormat.html).2 :=
  executeCommand_undefined_cwd_concat envCwdEmptyOuts ExportFormat.html
    "nb.ipynb" "Untitled.html" []
    rfl (fun _ => rfl) rfl rfl rfl rfl rfl rfl (Or.inl rfl) rfl

/-- C5 counterexample: with an undefined working directory the nbconvert
source path is the text undefined followed by the slash and the backing path;
it is not the bare slash concatenation the claim states. -/
theorem executeCommand_cwd_not_empty_string_concat :
    Effect.nbconvert "undefined/nb.ipynb" ∈
      (ExportBase.executeCommand envCwdEmptyOuts ExportFormat.html).2 ∧
    ¬(Effect.nbconvert "/nb.ipynb" ∈
      (ExportBase.executeCommand envCwdEmptyOuts ExportFormat.html).2) := by
  constructor <;> decide

/-- C2 (amended): with a non-empty resource and a successfully created
backing file, the backing file is disposed and deleted immediately after the
handler resolves (the outcome of the deletion itself being discarded); when
the handler rejects, the rejection propagates and the backing file is neither
disposed nor deleted. -/
theorem invokeWithFileSynced_cleanup_after_handler (env : ExportBase.SyncEnv) (bp : String)
    (h1 : env.resourceEmpty = false)
    (h2 : env.createBackingResult = Except.ok (some bp))
    (h3 : env.contentsParseOk = true)
    (h4 : env.disposeBackingResult = Except.ok ()) :
    (env.handlerResult = Except.ok () →
      ExportBase.invokeWithFileSynced env =
        (Except.ok (), [Effect.createBackingFile, Effect.saveBackingFile, Effect.handlerCall,
                        Effect.disposeBacking, Effect.deleteBacking bp])) ∧
    (∀ e, env.handlerResult = Except.error e →
      ExportBase.invokeWithFileSynced env =
        (Except.error e, [Effect.createBackingFile, Effect.saveBackingFile,
                          Effect.handlerCall])) := by
  constructor
  · intro hh
    simp [ExportBase.invokeWithFileSynced, h1, h2, h3, h4, hh, catchNoop]
  · intro e hh
    simp [ExportBase.invokeWithFileSynced, h1, h2, h3, hh]

/-- A staging run in which the handler resolves. -/
def envHandlerOk : ExportBase.SyncEnv :=
  { resourceEmpty := false, createBackingResult := Except.ok (some "nb.ipynb"),
    contentsParseOk := true, handlerResult := Except.ok (),
    disposeBackingResult := Except.ok (), deleteBackingResult := Except.ok () }

/-- C2 witness: the staging-cleanup theorem instantiated on the run whose
handler resolves. -/
theorem invokeWithFileSynced_cleanup_after_handler_witness :
    (envHandlerOk.handlerResult = Except.ok () →
      ExportBase.invokeWithFileSynced envHandlerOk =
        (Except.ok (), [Effect.createBackingFile, Effect.saveBackingFile, Effect.handlerCall,
                        Effect.disposeBacking, Effect.deleteBacking "nb.ipynb"])) ∧
    (∀ e, envHandlerOk.handlerResult = Except.error e →
      ExportBase.invokeWithFileSynced envHandlerOk =
        (Except.error e, [Effect.createBackingFile, Effect.saveBackingFile,
                          Effect.handlerCall])) :=
  invokeWithFileSynced_cleanup_after_handler envHandlerOk "nb.ipynb" rfl rfl rfl rfl

/-- The same staging run except that the handler rejects. -/
def envHandlerRejects : ExportBase.SyncEnv :=
  { envHandlerOk with handlerResult := Except.error "handler boom" }

/-- C2 counterexample: when the caller-supplied handler rejects, the backing
file that was successfully created is neither disposed nor deleted; the
rejection propagates with no cleanup. -/
theorem invokeWithFileSynced_handler_rejection_skips_cleanup :
    envHandlerRejects.createBackingResult = Except.ok (some "nb.ipynb") ∧
    (ExportBase.invokeWithFileSynced envHandlerRejects).1 = Except.error "handler boom" ∧
    ¬(Effect.disposeBacking ∈ (ExportBase.invokeWithFileSynced envHandlerRejects).2) ∧
    List.countP isDeleteBacking (ExportBase.invokeWithFileSynced envHandlerRejects).2 = 0 :=
  ⟨rfl, rfl, by decide, rfl⟩
